import Mathlib

/-
Verification development for torch/_dynamo/codegen.py (class PyCodegen).

The Python class is embedded shallowly: the mutable PyCodegen object becomes
an explicit state record (CgState) threaded through every operation, and
Python exceptions become an explicit result type (CgRes) whose error case
carries the state at the moment the exception was raised, mirroring the fact
that mutations performed before a raise persist on the Python object.

Collaborators that live outside codegen.py (the bytecode_transformation
helpers, the trace context tx, VariableTracker.reconstruct, Source
reconstruction, utils.rot_n_helper, is_safe_constant) are modelled from the
specification; each such definition carries a doc comment saying so.
Python version numbers are encoded as natural numbers: 310 for 3.10,
311 for 3.11, 312 for 3.12, 313 for 3.13.
-/

/-- Constant values that may appear as the symbolic argument of an
instruction.  Opaque runtime objects (the root module, code objects, the
rot_n helper lambda) are represented by identity tags. -/
inductive PyConst where
  | int (i : Int)
  | str (s : String)
  | noneV
  | rotHelper (n : Nat)
  | obj (objId : Nat)
  | code (codeId : Nat)
  deriving DecidableEq

/-- The symbolic argument (argval) of an instruction: a name or a constant. -/
inductive ArgVal where
  | str (s : String)
  | const (c : PyConst)
  deriving DecidableEq

/-- A single bytecode instruction: opcode name, optional raw argument,
optional symbolic argument, and the embedded push-null bit that some
callable-loading opcodes carry on newer interpreter generations. -/
structure Instruction where
  opname : String
  arg : Option Nat
  argval : Option ArgVal
  nullBit : Bool
  deriving DecidableEq

def mkInstr (op : String) : Instruction :=
  { opname := op, arg := none, argval := none, nullBit := false }

def mkInstrArg (op : String) (a : Nat) : Instruction :=
  { opname := op, arg := some a, argval := none, nullBit := false }

def mkInstrVal (op : String) (v : ArgVal) : Instruction :=
  { opname := op, arg := none, argval := some v, nullBit := false }

/-- A source (origin) describing where a value can be re-read from:
a named root location or an attribute path on another source. -/
inductive PySource where
  | named (s : String)
  | attr (base : PySource) (name : String)
  deriving DecidableEq

/-- The kind of a VariableTracker, replicating the isinstance chain of
PyCodegen.__call__ as a closed enumeration.  Subclass relationships in the
Python code are irrelevant because the dispatch order below matches the
order of the isinstance tests in the source. -/
inductive VKind where
  | tensorWithTFOverride
  | symNode
  | tensor
  | unspecializedPython
  | numpyNdarray
  | nnModule
  | functionCtxManager
  | other
  deriving DecidableEq

/-- Abstract value descriptor (VariableTracker).  vid is the Python object
identity; proxyId is the identity of value.as_proxy() used as the
graph-output key; mutationExisting says whether mutation_type is an
instance of ValueMutationExisting. -/
structure VT where
  vid : Nat
  kind : VKind
  source : Option PySource
  mutationExisting : Bool
  isPythonConstant : Bool
  constVal : PyConst
  proxyId : Nat
  needUnwrap : Bool
  pythonTypeFloat : Bool
  moduleKey : String
  mangledClassName : String
  deriving DecidableEq

/-- Graph output entry: assigned index plus the tracked value (by identity). -/
structure GraphOutputEntry where
  index : Nat
  varRef : Nat
  deriving DecidableEq

/-- The mutable state of a PyCodegen object, plus the pieces of external
state it reads and writes (co_varnames, co_names, the new_var counter). -/
structure CgState where
  top_of_stack : Option Nat
  uses : List (Nat × Nat)
  graph_outputs : List (Nat × GraphOutputEntry)
  _output : List Instruction
  tempvars : List (Nat × Option String)
  value_from_source : Bool
  overridden_sources : List (PySource × PySource)
  graph_output_var : Option String
  varnames : List String
  conames : List String
  nextVar : Nat
  root : Option Nat
  deriving DecidableEq

/-- Errors: NotImplementedError raised by a reconstruction routine, the
Unsupported signal raised by exc.unimplemented, and assertion / key errors. -/
inductive CgErr where
  | notImplementedError
  | unsupported (msg : String)
  | assertionError
  | keyError
  deriving DecidableEq

/-- Result of a stateful operation.  The error case carries the state at the
moment the exception was raised, since mutations before a raise persist. -/
inductive CgRes where
  | ok (st : CgState)
  | err (e : CgErr) (st : CgState)
  deriving DecidableEq

def CgRes.andThen (r : CgRes) (f : CgState → CgRes) : CgRes :=
  match r with
  | .ok st => f st
  | .err e st => .err e st

def resState : CgRes → CgState
  | .ok st => st
  | .err _ st => st

/-- A value passed to PyCodegen.__call__: either a Source or a tracked value. -/
inductive CgValue where
  | src (s : PySource)
  | vt (v : VT)

/-- External collaborators of one codegen session.
Modelled from the spec: sourceRecon is the reconstruction of a Source
(source.py), reconstruct is VariableTracker.reconstruct (variables/),
importSource is tx.import_source, asTensor is SymNodeVariable.as_tensor,
ver is the interpreter generation and exportMode is tx.export. -/
structure Env where
  ver : Nat
  exportMode : Bool
  sourceRecon : PySource → CgState → CgRes
  reconstruct : VT → CgState → CgRes
  importSource : String → PySource
  asTensor : VT → VT

/-- Association list lookup keyed by decidable equality, modelling Python
dict lookup (VariableTracker keys hash by object identity, so keys are vids). -/
def lookupD {α β : Type} [DecidableEq α] : List (α × β) → α → Option β
  | [], _ => none
  | (k, b) :: r, a => if k = a then some b else lookupD r a

/-- Association list update modelling Python dict assignment: replace in
place if the key is present, append otherwise. -/
def setAssoc {α β : Type} [DecidableEq α] : List (α × β) → α → β → List (α × β)
  | [], a, b => [(a, b)]
  | (k, c) :: r, a, b => if k = a then (k, b) :: r else (k, c) :: setAssoc r a b

/-- Counter increment, modelling self.uses[value] += 1. -/
def bumpCount : List (Nat × Nat) → Nat → List (Nat × Nat)
  | [], a => [(a, 1)]
  | (k, c) :: r, a => if k = a then (k, c + 1) :: r else (k, c) :: bumpCount r a

def clear_tos (st : CgState) : CgState :=
  { st with top_of_stack := none }

def setTos (st : CgState) (vid : Nat) : CgState :=
  { st with top_of_stack := some vid }

def appendInstr (st : CgState) (i : Instruction) : CgState :=
  { st with _output := st._output ++ [i] }

def extendInstrs (st : CgState) (l : List Instruction) : CgState :=
  { st with _output := st._output ++ l }

def incUses (st : CgState) (vid : Nat) : CgState :=
  { st with uses := bumpCount st.uses vid }

/-- Python dict .get with default None: self.tempvars.get(value). -/
def tempvarGet (st : CgState) (v : VT) : Option String :=
  match lookupD st.tempvars v.vid with
  | some (some s) => some s
  | _ => none

/-- Modelled from the spec: tx.output.new_var creates a fresh temporary
name and registers it in co_varnames; names are generated from a counter. -/
def freshVarName (n : Nat) : String :=
  "tmp_" ++ toString n

/-- Modelled from the spec: utils.is_safe_constant decides eligibility of a
constant for safe inlining; numbers, strings and None qualify, opaque
runtime objects do not. -/
def is_safe_constant : PyConst → Bool
  | PyConst.int _ => true
  | PyConst.str _ => true
  | PyConst.noneV => true
  | PyConst.rotHelper _ => false
  | PyConst.obj _ => false
  | PyConst.code _ => false

/-- Modelled from the spec: bytecode_transformation.create_dup_top emits
the stack duplication instruction of the active generation. -/
def createDupTop (ver : Nat) : Instruction :=
  if 311 ≤ ver then mkInstrArg "COPY" 1 else mkInstr "DUP_TOP"

/-- Modelled from the spec: whether an instruction carries an embedded
push-null bit on the given generation (LOAD_GLOBAL from 3.11, LOAD_ATTR
from 3.12, LOAD_SUPER_ATTR). -/
def supportsNullBit (ver : Nat) (i : Instruction) : Bool :=
  if 311 ≤ ver ∧ i.opname = "LOAD_GLOBAL" then true
  else if 312 ≤ ver ∧ i.opname = "LOAD_ATTR" then true
  else if i.opname = "LOAD_SUPER_ATTR" then true
  else false

def supportsNullBitL (ver : Nat) (l : List Instruction) : Bool :=
  match l.getLast? with
  | some i => supportsNullBit ver i
  | none => false

def setNullBit (i : Instruction) : Instruction :=
  { i with nullBit := true }

def mapLastNullBit (l : List Instruction) : List Instruction :=
  match l.getLast? with
  | some i => l.dropLast ++ [setNullBit i]
  | none => l

/-- Modelled from the spec: bytecode_transformation.add_push_null splices a
null-placeholder push around the instructions that load one callable:
before them on 3.11/3.12, after them on 3.13+, preferring the embedded
null-push bit of the callable-loading (last) instruction when available.
Before 3.11 no null placeholder exists. -/
def add_push_null_insts (ver : Nat) (insts : List Instruction) : List Instruction :=
  if ver < 311 then insts
  else if supportsNullBitL ver insts = true then mapLastNullBit insts
  else if 313 ≤ ver then insts ++ [mkInstr "PUSH_NULL"]
  else mkInstr "PUSH_NULL" :: insts

/-- Modelled from the spec: bytecode_transformation.add_push_null_call_function_ex,
the CALL_FUNCTION_EX variant, which always uses a separate PUSH_NULL. -/
def add_push_null_cfe (ver : Nat) (insts : List Instruction) : List Instruction :=
  if ver < 311 then insts
  else if 313 ≤ ver then insts ++ [mkInstr "PUSH_NULL"]
  else mkInstr "PUSH_NULL" :: insts

/-- Modelled from the spec: bytecode_transformation.create_call_function
with push_null=False emits the call sequence of the active generation. -/
def create_call_function (ver nargs : Nat) (pushNull : Bool) : List Instruction :=
  let core :=
    if 312 ≤ ver then [mkInstrArg "CALL" nargs]
    else if 311 ≤ ver then [mkInstrArg "PRECALL" nargs, mkInstrArg "CALL" nargs]
    else [mkInstrArg "CALL_FUNCTION" nargs]
  if pushNull ∧ 311 ≤ ver then mkInstr "PUSH_NULL" :: core else core

/-- Modelled from the spec: bytecode_transformation.create_rot_n returns
the native rotate sequence for depth n, or nothing (an AttributeError in
Python) when the generation has no native instruction for that depth:
3.11+ uses SWAP chains, earlier generations have ROT_TWO/THREE/FOUR and,
from 3.10 only, arbitrary-depth ROT_N. -/
def create_rot_n (ver n : Nat) : Option (List Instruction) :=
  if n ≤ 1 then some []
  else if 311 ≤ ver then some ((List.range (n - 1)).map (fun i => mkInstrArg "SWAP" (n - i)))
  else if n = 2 then some [mkInstr "ROT_TWO"]
  else if n = 3 then some [mkInstr "ROT_THREE"]
  else if n = 4 then some [mkInstr "ROT_FOUR"]
  else if 310 ≤ ver then some [mkInstrArg "ROT_N" n]
  else none

/-- Modelled from the spec: str(value) for a VariableTracker, used in the
reconstruction error message. -/
def vtStr (v : VT) : String :=
  "VariableTracker(" ++ toString v.vid ++ ")"

/-- PyCodegen.rot_n: native rotate when available, otherwise the fallback
that packs the top n values, loads the constant rot_n_helper, swaps it
below the tuple, invokes it via CALL_FUNCTION_EX and re-expands. -/
def rot_n (ver n : Nat) : List Instruction :=
  match create_rot_n ver n with
  | some l => l
  | none =>
      [mkInstrArg "BUILD_TUPLE" n,
       mkInstrVal "LOAD_CONST" (ArgVal.const (PyConst.rotHelper n))]
      ++ (match create_rot_n ver 2 with
          | some l => l
          | none => [])
      ++ [mkInstrArg "CALL_FUNCTION_EX" 0, mkInstrArg "UNPACK_SEQUENCE" n]

/-- PyCodegen.append_output: append one instruction and clear the
top-of-stack descriptor. -/
def append_output (st : CgState) (i : Instruction) : CgState :=
  clear_tos (appendInstr st i)

/-- PyCodegen.extend_output: append a list of instructions and clear the
top-of-stack descriptor. -/
def extend_output (st : CgState) (l : List Instruction) : CgState :=
  clear_tos (extendInstrs st l)

/-- PyCodegen.create_load: assert the name is a declared local, then emit
LOAD_FAST; the assertion failure is an error result. -/
def appendCreateLoad (st : CgState) (name : String) : CgRes :=
  if name ∈ st.varnames then
    CgRes.ok (appendInstr st (mkInstrVal "LOAD_FAST" (ArgVal.str name)))
  else CgRes.err CgErr.assertionError st

/-- PyCodegen.create_load_attr: register the name in co_names when absent,
then emit LOAD_ATTR. -/
def appendLoadAttr (st : CgState) (name : String) : CgState :=
  let st1 :=
    if name ∈ st.conames then st else { st with conames := st.conames ++ [name] }
  appendInstr st1 (mkInstrVal "LOAD_ATTR" (ArgVal.str name))

/-- PyCodegen.create_load_global with add=True: register the name in
co_names via tx.output.update_co_names, then emit LOAD_GLOBAL. -/
def appendLoadGlobalAdd (st : CgState) (name : String) : CgState :=
  let st1 :=
    if name ∈ st.conames then st else { st with conames := st.conames ++ [name] }
  appendInstr st1 (mkInstrVal "LOAD_GLOBAL" (ArgVal.str name))

/-- PyCodegen.add_graph_output: key by id(value.as_proxy()); on first
request record an entry whose index is the current number of entries. -/
def add_graph_output (st : CgState) (v : VT) : CgState × Nat :=
  let key := v.proxyId
  match lookupD st.graph_outputs key with
  | some _ => (st, key)
  | none =>
      ({ st with graph_outputs :=
          st.graph_outputs ++ [(key, { index := st.graph_outputs.length, varRef := v.vid })] },
       key)

/-- PyCodegen.load_graph_output: load the designated output-collection
variable, the constant index, and a subscript read. -/
def load_graph_output (st : CgState) (idx : Nat) : CgRes :=
  match st.graph_output_var with
  | some nm =>
      (appendCreateLoad st nm).andThen (fun s1 =>
        CgRes.ok (appendInstr
          (appendInstr s1 (mkInstrVal "LOAD_CONST" (ArgVal.const (PyConst.int (Int.ofNat idx)))))
          (mkInstr "BINARY_SUBSCR")))
  | none => CgRes.err CgErr.assertionError st

/-- Lookup of graph_outputs[key].index followed by load_graph_output, as the
dispatcher does after add_graph_output. -/
def loadGraphOutputByKey (st : CgState) (key : Nat) : CgRes :=
  match lookupD st.graph_outputs key with
  | some e => load_graph_output st e.index
  | none => CgRes.err CgErr.keyError st

/-- PyCodegen.add_cache: obtain a fresh temporary via new_var (which
registers it in co_varnames), record it in tempvars, and store into it. -/
def add_cache (st : CgState) (v : VT) : CgRes :=
  let name := freshVarName st.nextVar
  let st1 := { st with
    nextVar := st.nextVar + 1,
    varnames := st.varnames ++ [name],
    tempvars := setAssoc st.tempvars v.vid (some name) }
  if name ∈ st1.varnames then
    CgRes.ok (appendInstr st1 (mkInstrVal "STORE_FAST" (ArgVal.str name)))
  else CgRes.err CgErr.assertionError st1

/-- PyCodegen.add_push_null: record the output length, clear the
top-of-stack descriptor before running the generator on generations before
3.13, run the generator, splice the captured instructions through the
null-placement helper, and clear the descriptor afterwards on 3.13+. -/
def add_push_null (ver : Nat) (g : CgState → CgRes) (cfe : Bool) (st : CgState) : CgRes :=
  let old_len := st._output.length
  let st1 := if ver < 313 then clear_tos st else st
  match g st1 with
  | CgRes.err e st2 => CgRes.err e st2
  | CgRes.ok st2 =>
      let added := st2._output.drop old_len
      let newOut := st2._output.take old_len ++
        (if cfe then add_push_null_cfe ver added else add_push_null_insts ver added)
      let st3 := { st2 with _output := newOut }
      if 313 ≤ ver then CgRes.ok (clear_tos st3) else CgRes.ok st3

/-- The Source branch of PyCodegen.__call__: apply the session override
map, reconstruct the source, and clear the top-of-stack descriptor. -/
def pyCallSrc (env : Env) (st : CgState) (s : PySource) : CgRes :=
  let s1 := (lookupD st.overridden_sources s).getD s
  (env.sourceRecon s1 st).andThen (fun st1 => CgRes.ok (clear_tos st1))

/-- PyCodegen.load_import_from: codegen the AttrSource of the imported
module member. -/
def loadImportFrom (env : Env) (st : CgState) (m o : String) : CgRes :=
  pyCallSrc env st (PySource.attr (env.importSource m) o)

def dynamoUtilsName : String := "torch._dynamo.utils"

/-- The TensorWithTFOverrideVariable branch of the dispatcher. -/
def tfOverrideBranch (env : Env) (st : CgState) (v : VT) : CgRes :=
  let pr := add_graph_output st v
  (add_push_null env.ver (fun s => loadImportFrom env s dynamoUtilsName "to_subclass")
      false pr.1).andThen (fun stB =>
    (loadGraphOutputByKey stB pr.2).andThen (fun stC =>
      CgRes.ok (setTos
        (extendInstrs (appendLoadGlobalAdd stC v.mangledClassName)
          (create_call_function env.ver 2 false)) v.vid)))

/-- The SymNodeVariable-of-float branch of the dispatcher: materialize the
value as a tensor graph output and read its scalar via an item call. -/
def symFloatBranch (env : Env) (st : CgState) (v : VT) : CgRes :=
  let vt := env.asTensor v
  let pr := add_graph_output st vt
  (add_push_null env.ver
      (fun s => (loadGraphOutputByKey s pr.2).andThen (fun s2 =>
        CgRes.ok (appendLoadAttr s2 "item")))
      false pr.1).andThen (fun stB =>
    CgRes.ok (setTos (extendInstrs stB (create_call_function env.ver 0 false)) v.vid))

/-- The tensor / symbolic / unspecialized-scalar / numpy branch of the
dispatcher. -/
def tensorFamilyBranch (env : Env) (st : CgState) (v : VT) : CgRes :=
  let pr := add_graph_output st v
  if v.kind = VKind.numpyNdarray then
    (add_push_null env.ver (fun s => loadImportFrom env s dynamoUtilsName "to_numpy_helper")
        false pr.1).andThen (fun stB =>
      (loadGraphOutputByKey stB pr.2).andThen (fun stC =>
        CgRes.ok (setTos (extendInstrs stC (create_call_function env.ver 1 false)) v.vid)))
  else if v.kind = VKind.unspecializedPython ∧ v.needUnwrap = true then
    (add_push_null env.ver
        (fun s => (loadGraphOutputByKey s pr.2).andThen (fun s2 =>
          CgRes.ok (appendLoadAttr s2 "item")))
        false pr.1).andThen (fun stB =>
      CgRes.ok (setTos (extendInstrs stB (create_call_function env.ver 0 false)) v.vid))
  else
    (loadGraphOutputByKey pr.1 pr.2).andThen (fun stB => CgRes.ok (setTos stB v.vid))

/-- The NNModuleVariable branch of the dispatcher: load the first path
segment as a local when declared, else the constant root object, then
attribute loads for the remaining segments. -/
def nnModuleBranch (st : CgState) (v : VT) (vid : Nat) : CgRes :=
  match v.moduleKey.splitOn "." with
  | [] => CgRes.err CgErr.assertionError st
  | p :: rest =>
      if p ∈ st.varnames then
        (appendCreateLoad st p).andThen (fun st1 =>
          CgRes.ok (setTos (rest.foldl appendLoadAttr st1) vid))
      else
        match st.root with
        | some rid =>
            CgRes.ok (setTos ((p :: rest).foldl appendLoadAttr
              (appendInstr st (mkInstrVal "LOAD_CONST" (ArgVal.const (PyConst.obj rid))))) vid)
        | none => CgRes.err CgErr.assertionError st

/-- The structural else branch of the dispatcher: bump the use counter,
invoke the reconstruction routine of the value, translate its
NotImplementedError into the Unsupported reconstruction error naming the
value, and when caching is enabled and the value is registered in
tempvars, duplicate the top of stack and spill it via add_cache. -/
def structuralBranch (env : Env) (st : CgState) (v : VT) (ac : Bool) : CgRes :=
  let st1 := incUses st v.vid
  match env.reconstruct v st1 with
  | CgRes.err CgErr.notImplementedError st2 =>
      CgRes.err (CgErr.unsupported ("reconstruct: " ++ vtStr v)) st2
  | CgRes.err e st2 => CgRes.err e st2
  | CgRes.ok st2 =>
      if ac = true ∧ (lookupD st2.tempvars v.vid).isSome = true then
        (add_cache (appendInstr st2 (createDupTop env.ver)) v).andThen (fun st3 =>
          CgRes.ok (setTos st3 v.vid))
      else CgRes.ok (setTos st2 v.vid)

/-- The kind dispatch of PyCodegen.__call__ (everything after the cache
and source-preference checks), in source order. -/
def pyCallDispatch (env : Env) (st : CgState) (v : VT) (ac : Bool) : CgRes :=
  if v.isPythonConstant = true ∧ is_safe_constant v.constVal = true then
    CgRes.ok (setTos
      (appendInstr st (mkInstrVal "LOAD_CONST" (ArgVal.const v.constVal))) v.vid)
  else if v.kind = VKind.tensorWithTFOverride then
    tfOverrideBranch env st v
  else if v.kind = VKind.symNode ∧ v.pythonTypeFloat = true ∧ env.exportMode = false then
    symFloatBranch env st v
  else if v.kind = VKind.tensor ∨ v.kind = VKind.symNode
        ∨ v.kind = VKind.unspecializedPython ∨ v.kind = VKind.numpyNdarray then
    tensorFamilyBranch env st v
  else if v.kind = VKind.nnModule then
    nnModuleBranch st v v.vid
  else
    structuralBranch env st v ac

/-- The source-preference step of PyCodegen.__call__: with a source, cache
allowed, a kind other than the contextlib-decorated function variable, and
either the mutation flag set or the session prefer-source mode active,
recurse on the source; otherwise fall through to the kind dispatch. -/
def pyCallVtMain (env : Env) (st : CgState) (v : VT) (ac : Bool) : CgRes :=
  match v.source with
  | some s =>
      if ac = true ∧ v.kind ≠ VKind.functionCtxManager
          ∧ (v.mutationExisting = true ∨ st.value_from_source = true) then
        pyCallSrc env st s
      else pyCallDispatch env st v ac
  | none => pyCallDispatch env st v ac

/-- The tempvar fast path of PyCodegen.__call__ plus everything below it:
with caching allowed and an assigned temp slot, load the slot and set the
top-of-stack descriptor; otherwise continue with the source-preference
step. -/
def pyCallVtRest (env : Env) (st : CgState) (v : VT) (ac : Bool) : CgRes :=
  match (if ac = true then tempvarGet st v else none) with
  | some name =>
      (appendCreateLoad st name).andThen (fun st1 => CgRes.ok (setTos st1 v.vid))
  | none => pyCallVtMain env st v ac

/-- PyCodegen.__call__ on a VariableTracker: the duplicate-top fast path
when the value is the current top-of-stack descriptor, else the rest. -/
def pyCallVt (env : Env) (st : CgState) (v : VT) (ac : Bool) : CgRes :=
  if ac = true ∧ st.top_of_stack = some v.vid then
    CgRes.ok (appendInstr st (createDupTop env.ver))
  else
    pyCallVtRest env st v ac

/-- PyCodegen.__call__: dispatch on Source versus VariableTracker. -/
def pyCall (env : Env) (st : CgState) (value : CgValue) (ac : Bool) : CgRes :=
  match value with
  | CgValue.src s => pyCallSrc env st s
  | CgValue.vt v => pyCallVt env st v ac

/-- PyCodegen.foreach: codegen each item in order with caching allowed. -/
def foreach (env : Env) : CgState → List CgValue → CgRes
  | st, [] => CgRes.ok st
  | st, x :: xs =>
      match pyCall env st x true with
      | CgRes.ok st1 => foreach env st1 xs
      | CgRes.err e st1 => CgRes.err e st1

/-- PyCodegen.restore_stack: narrow the prefer-source flag for the
duration of foreach and restore the previous value even on error
(the try/finally in the source). -/
def restore_stack (env : Env) (st : CgState) (vals : List CgValue) (vfs : Bool) : CgRes :=
  let prev := st.value_from_source
  let st1 := { st with value_from_source := st.value_from_source && vfs }
  match foreach env st1 vals with
  | CgRes.ok st2 => CgRes.ok { st2 with value_from_source := prev }
  | CgRes.err e st2 => CgRes.err e { st2 with value_from_source := prev }

/-- Positional-index well-formedness of the graph-output table: the entry
stored at list position i carries index i. -/
def goIdxFrom : Nat → List (Nat × GraphOutputEntry) → Bool
  | _, [] => true
  | i, p :: r => (p.2.index == i) && goIdxFrom (i + 1) r

/-- Well-formed graph-output table: indices are exactly the positions
(hence monotonically increasing from 0) and keys are distinct. -/
def goWF (st : CgState) : Prop :=
  goIdxFrom 0 st.graph_outputs = true ∧ (st.graph_outputs.map Prod.fst).Nodup

/-- A fresh session state used for concrete evaluations. -/
def stEmpty : CgState :=
  { top_of_stack := none, uses := [], graph_outputs := [], _output := [],
    tempvars := [], value_from_source := true, overridden_sources := [],
    graph_output_var := some "graph_out_0", varnames := ["graph_out_0"],
    conames := [], nextVar := 0, root := none }

/-- A concrete environment on generation 3.11: source reconstruction loads
the local x, structural reconstruction raises NotImplementedError. -/
def envW : Env :=
  { ver := 311, exportMode := false,
    sourceRecon := fun _ st => CgRes.ok (appendInstr st (mkInstrVal "LOAD_FAST" (ArgVal.str "x"))),
    reconstruct := fun _ st => CgRes.err CgErr.notImplementedError st,
    importSource := fun m => PySource.named m,
    asTensor := fun v => v }

/-- The same environment with a structural reconstruction routine that
emits one BUILD_LIST instruction. -/
def envC4 : Env :=
  { envW with reconstruct := fun _ st => CgRes.ok (appendInstr st (mkInstrArg "BUILD_LIST" 0)) }

/-- A baseline tracked value from which concrete test values are derived. -/
def vtBase : VT :=
  { vid := 0, kind := VKind.other, source := none, mutationExisting := false,
    isPythonConstant := false, constVal := PyConst.noneV, proxyId := 0,
    needUnwrap := false, pythonTypeFloat := false, moduleKey := "",
    mangledClassName := "" }

def vC1 : VT :=
  { vtBase with vid := 1, source := some (PySource.named "a"), mutationExisting := true }

def stC1cex : CgState := { stEmpty with top_of_stack := some 1 }

def vC2 : VT := { vtBase with vid := 2, source := some (PySource.named "x") }

def stC2a : CgState := resState (pyCall envW stEmpty (CgValue.vt vC2) true)

def stC2b : CgState := resState (pyCall envW stC2a (CgValue.vt vC2) true)

def vConst : VT := { vtBase with vid := 3, isPythonConstant := true, constVal := PyConst.int 5 }

def stW1 : CgState := resState (pyCall envW stEmpty (CgValue.vt vConst) true)

def vC3 : VT := { vtBase with vid := 4, proxyId := 40 }

def vC4 : VT := { vtBase with vid := 5 }

def stC4 : CgState := { stEmpty with tempvars := [(5, none)] }

def stC4r : CgState := resState (envC4.reconstruct vC4 (incUses stC4 vC4.vid))

def vC8 : VT := { vtBase with vid := 6 }

def stC8r : CgState := resState (envW.reconstruct vC8 (incUses stEmpty vC8.vid))

def gC5 : CgState → CgRes :=
  fun s => CgRes.ok (appendInstr s (mkInstrVal "LOAD_GLOBAL" (ArgVal.str "f")))

def stC5g : CgState := resState (gC5 stEmpty)

/-- The state produced by the first pass of the structural caching
scenario: the post-reconstruction state st1 followed by duplicate-top, a
store into the freshly assigned temporary, the tempvar-map update, the
new_var side effects, and the top-of-stack descriptor set to the value. -/
def c4CachedState (env : Env) (st1 : CgState) (vid : Nat) : CgState :=
  { st1 with
    _output := st1._output ++
      [createDupTop env.ver,
       mkInstrVal "STORE_FAST" (ArgVal.str (freshVarName st1.nextVar))],
    varnames := st1.varnames ++ [freshVarName st1.nextVar],
    nextVar := st1.nextVar + 1,
    tempvars := setAssoc st1.tempvars vid (some (freshVarName st1.nextVar)),
    top_of_stack := some vid }

/-- Conclusion of the add_push_null specification: the method output is
the original stream plus the transformed generator instructions; the
transformation puts the null before them on 3.11/3.12 and after them on
3.13+, preferring the embedded bit of the callable-loading instruction;
and on 3.13+ the top-of-stack descriptor is cleared on return. -/
def c5Concl (ver : Nat) (g : CgState → CgRes) (st st2 : CgState)
    (insts : List Instruction) : Prop :=
  add_push_null ver g false st =
      CgRes.ok (if 313 ≤ ver
        then clear_tos { st2 with _output := st._output ++ add_push_null_insts ver insts }
        else { st2 with _output := st._output ++ add_push_null_insts ver insts })
  ∧ (311 ≤ ver → ver < 313 →
      add_push_null_insts ver insts =
        (if supportsNullBitL ver insts = true then mapLastNullBit insts
         else mkInstr "PUSH_NULL" :: insts))
  ∧ (313 ≤ ver →
      add_push_null_insts ver insts =
        (if supportsNullBitL ver insts = true then mapLastNullBit insts
         else insts ++ [mkInstr "PUSH_NULL"]))
  ∧ (313 ≤ ver → (resState (add_push_null ver g false st)).top_of_stack = none)

/-- Conclusion of the pre-clearing property of add_push_null on
generations before 3.13: the generator only ever sees the state with the
top-of-stack descriptor cleared, and from any state with a cleared
descriptor the dispatcher cannot take the duplicate-top fast path. -/
def c10Concl (ver : Nat) (g : CgState → CgRes) (cfe : Bool) (st : CgState)
    (env : Env) (stq : CgState) (v : VT) (ac : Bool) : Prop :=
  add_push_null ver g cfe st = add_push_null ver (fun s => g (clear_tos s)) cfe st
  ∧ (clear_tos st).top_of_stack = none
  ∧ (stq.top_of_stack = none → pyCallVt env stq v ac = pyCallVtRest env stq v ac)

theorem lookupD_setAssoc_self {α β : Type} [DecidableEq α]
    (l : List (α × β)) (a : α) (b : β) :
    lookupD (setAssoc l a b) a = some b := by
  induction l with
  | nil => simp [setAssoc, lookupD]
  | cons p r ih =>
      obtain ⟨k, c⟩ := p
      by_cases hk : k = a
      · simp [setAssoc, hk, lookupD]
      · simp [setAssoc, hk, lookupD, ih]

theorem lookupD_append_right {α β : Type} [DecidableEq α]
    (l m : List (α × β)) (a : α) (h : lookupD l a = none) :
    lookupD (l ++ m) a = lookupD m a := by
  induction l with
  | nil => simp
  | cons p r ih =>
      obtain ⟨k, c⟩ := p
      by_cases hk : k = a
      · simp [lookupD, hk] at h
      · simp only [List.cons_append, lookupD, if_neg hk] at h ⊢
        exact ih h

theorem lookupD_none_notmem {α β : Type} [DecidableEq α]
    (l : List (α × β)) (a : α) (h : lookupD l a = none) :
    a ∉ l.map Prod.fst := by
  induction l with
  | nil => simp
  | cons p r ih =>
      obtain ⟨k, c⟩ := p
      by_cases hk : k = a
      · simp [lookupD, hk] at h
      · simp only [lookupD, if_neg hk] at h
        intro hmem
        rw [List.map_cons] at hmem
        rcases List.mem_cons.mp hmem with h1 | h1
        · exact hk h1.symm
        · exact ih h h1

theorem goIdxFrom_append (l : List (Nat × GraphOutputEntry))
    (x : Nat × GraphOutputEntry) :
    ∀ i, goIdxFrom i (l ++ [x]) = (goIdxFrom i l && (x.2.index == i + l.length)) := by
  induction l with
  | nil => intro i; simp [goIdxFrom]
  | cons p r ih =>
      intro i
      have harr : i + 1 + r.length = i + (r.length + 1) := by omega
      simp [goIdxFrom, ih (i + 1), Bool.and_assoc, harr]

theorem nodup_append_singleton {α : Type} (l : List α) (a : α)
    (h : l.Nodup) (ha : a ∉ l) : (l ++ [a]).Nodup := by
  induction l with
  | nil => simp
  | cons b r ih =>
      rw [List.cons_append, List.nodup_cons]
      rw [List.nodup_cons] at h
      constructor
      · intro hc
        rcases List.mem_append.mp hc with h1 | h1
        · exact h.1 h1
        · apply ha
          simp at h1
          simp [h1]
      · exact ih h.2 (fun hc => ha (List.mem_cons_of_mem _ hc))

/-- C6: append_output and extend_output add the given instructions to the
instruction stream and unconditionally clear the top-of-stack descriptor,
so the duplicate-top cache check of the dispatcher fails for every value
immediately afterwards. -/
theorem append_extend_invalidate (st : CgState) (i : Instruction)
    (l : List Instruction) (env : Env) (v : VT) (ac : Bool) :
    (append_output st i)._output = st._output ++ [i]
    ∧ (append_output st i).top_of_stack = none
    ∧ (extend_output st l)._output = st._output ++ l
    ∧ (extend_output st l).top_of_stack = none
    ∧ pyCallVt env (append_output st i) v ac = pyCallVtRest env (append_output st i) v ac
    ∧ pyCallVt env (extend_output st l) v ac = pyCallVtRest env (extend_output st l) v ac := by
  refine ⟨rfl, rfl, rfl, rfl, ?_, ?_⟩ <;>
    simp [pyCallVt, append_output, extend_output, clear_tos, appendInstr, extendInstrs]

/-- C9: restore_stack restores the prefer-source flag value_from_source to
the value it held before the call, in the success case and in every error
case alike (the try/finally in the source). -/
theorem restore_stack_restores_flag (env : Env) (st : CgState)
    (vals : List CgValue) (b : Bool) :
    (resState (restore_stack env st vals b)).value_from_source = st.value_from_source := by
  cases h : foreach env { st with value_from_source := st.value_from_source && b } vals with
  | ok st2 => simp [restore_stack, h, resState]
  | err e st2 => simp [restore_stack, h, resState]

/-- C1 (amended): for a tracked value with an origin and the mutation flag
set, when caching is allowed, neither cache fast path applies (the value
is not the top-of-stack descriptor and has no assigned temp slot), and the
value is not the contextlib-decorated function kind, the dispatcher
behaves exactly as the origin-read path, never reaching the structural
branch. -/
theorem mutation_forces_source (env : Env) (st : CgState) (v : VT) (s : PySource)
    (hsrc : v.source = some s)
    (hmut : v.mutationExisting = true)
    (hkind : v.kind ≠ VKind.functionCtxManager)
    (htos : st.top_of_stack ≠ some v.vid)
    (htmp : tempvarGet st v = none) :
    pyCall env st (CgValue.vt v) true = pyCallSrc env st s := by
  simp [pyCall, pyCallVt, htos, pyCallVtRest, htmp, pyCallVtMain, hsrc, hkind, hmut]

/-- C1 counterexample: a value with an origin and the mutation flag set
that currently sits on top of the stack is emitted through the
duplicate-top cache path, not the origin-read path, so the original claim
(origin-read regardless of cache state) is false. -/
theorem mutation_source_cache_cex :
    vC1.source = some (PySource.named "a")
    ∧ vC1.mutationExisting = true
    ∧ pyCall envW stC1cex (CgValue.vt vC1) true
        = CgRes.ok (appendInstr stC1cex (createDupTop envW.ver))
    ∧ pyCall envW stC1cex (CgValue.vt vC1) true
        ≠ pyCallSrc envW stC1cex (PySource.named "a") := by
  refine ⟨rfl, rfl, by decide, by decide⟩

/-- C2 (amended): with caching enabled, if a request for a value left that
value recorded as the top-of-stack descriptor (that is, it was not
codegen-ed via its source, which clears the descriptor), then a second
request with no intervening instruction emission appends exactly one
duplicate-top instruction and changes nothing else. -/
theorem cache_dup_second_request (env : Env) (st st1 : CgState) (v : VT)
    (_h1 : pyCall env st (CgValue.vt v) true = CgRes.ok st1)
    (h2 : st1.top_of_stack = some v.vid) :
    pyCall env st1 (CgValue.vt v) true
      = CgRes.ok { st1 with _output := st1._output ++ [createDupTop env.ver] } := by
  simp [pyCall, pyCallVt, h2, appendInstr]

/-- C2 counterexample: a value with an origin is codegen-ed via the source
path, which clears the top-of-stack descriptor, so an immediately repeated
request emits a full second reconstruction instead of one duplicate-top
instruction; the original claim is false for such values. -/
theorem cache_dup_cex :
    pyCall envW stEmpty (CgValue.vt vC2) true = CgRes.ok stC2a
    ∧ pyCall envW stC2a (CgValue.vt vC2) true = CgRes.ok stC2b
    ∧ stC2b._output ≠ stC2a._output ++ [createDupTop envW.ver] := by
  refine ⟨by decide, by decide, by decide⟩

theorem mutation_forces_source_witness :
    vC1.source = some (PySource.named "a")
    ∧ vC1.mutationExisting = true
    ∧ vC1.kind ≠ VKind.functionCtxManager
    ∧ stEmpty.top_of_stack ≠ some vC1.vid
    ∧ tempvarGet stEmpty vC1 = none
    ∧ pyCall envW stEmpty (CgValue.vt vC1) true = pyCallSrc envW stEmpty (PySource.named "a") :=
  ⟨rfl, rfl, by decide, by decide, rfl,
   mutation_forces_source envW stEmpty vC1 (PySource.named "a") rfl rfl
     (by decide) (by decide) rfl⟩

theorem cache_dup_second_request_witness :
    pyCall envW stEmpty (CgValue.vt vConst) true = CgRes.ok stW1
    ∧ stW1.top_of_stack = some vConst.vid
    ∧ pyCall envW stW1 (CgValue.vt vConst) true
        = CgRes.ok { stW1 with _output := stW1._output ++ [createDupTop envW.ver] } :=
  ⟨by decide, by decide,
   cache_dup_second_request envW stEmpty stW1 vConst (by decide) (by decide)⟩

/-- C3: add_graph_output keys entries by the proxy identity; it returns
the key, preserves well-formedness (indices are exactly the positions,
monotonically increasing from 0, keys distinct), leaves the table
unchanged when the key is already present (so an index is assigned exactly
once per key and never reassigned), appends a new entry with the next
index when the key is new, and a repeated call returns the existing entry
unchanged. -/
theorem add_graph_output_spec (st : CgState) (v : VT) (h : goWF st) :
    (add_graph_output st v).2 = v.proxyId
    ∧ goWF (add_graph_output st v).1
    ∧ (lookupD st.graph_outputs v.proxyId ≠ none → (add_graph_output st v).1 = st)
    ∧ (lookupD st.graph_outputs v.proxyId = none →
        (add_graph_output st v).1.graph_outputs
          = st.graph_outputs ++ [(v.proxyId,
              { index := st.graph_outputs.length, varRef := v.vid })])
    ∧ add_graph_output (add_graph_output st v).1 v = ((add_graph_output st v).1, v.proxyId) := by
  cases hl : lookupD st.graph_outputs v.proxyId with
  | some e =>
      refine ⟨by simp [add_graph_output, hl], by simpa [add_graph_output, hl] using h,
              fun _ => by simp [add_graph_output, hl], fun hc => by simp [hl] at hc,
              by simp [add_graph_output, hl]⟩
  | none =>
      obtain ⟨hidx, hnd⟩ := h
      have heq : add_graph_output st v
          = ({ st with graph_outputs := st.graph_outputs
                ++ [(v.proxyId, { index := st.graph_outputs.length, varRef := v.vid })] },
             v.proxyId) := by
        simp [add_graph_output, hl]
      have hnew2 : lookupD (st.graph_outputs
            ++ [(v.proxyId, { index := st.graph_outputs.length, varRef := v.vid })]) v.proxyId
          = some { index := st.graph_outputs.length, varRef := v.vid } := by
        rw [lookupD_append_right _ _ _ hl]
        simp [lookupD]
      rw [heq]
      refine ⟨rfl, ?_, fun hc => absurd rfl hc, fun _ => rfl, ?_⟩
      · constructor
        · simp [goIdxFrom_append, hidx]
        · simp only [List.map_append]
          exact nodup_append_singleton _ _ hnd (lookupD_none_notmem _ _ hl)
      · simp [add_graph_output, hnew2]

theorem add_graph_output_spec_witness :
    goWF stEmpty
    ∧ ((add_graph_output stEmpty vC3).2 = vC3.proxyId
        ∧ goWF (add_graph_output stEmpty vC3).1
        ∧ (lookupD stEmpty.graph_outputs vC3.proxyId ≠ none
            → (add_graph_output stEmpty vC3).1 = stEmpty)
        ∧ (lookupD stEmpty.graph_outputs vC3.proxyId = none
            → (add_graph_output stEmpty vC3).1.graph_outputs
              = stEmpty.graph_outputs ++ [(vC3.proxyId,
                  { index := stEmpty.graph_outputs.length, varRef := vC3.vid })])
        ∧ add_graph_output (add_graph_output stEmpty vC3).1 vC3
            = ((add_graph_output stEmpty vC3).1, vC3.proxyId)) :=
  ⟨by constructor <;> decide, add_graph_output_spec stEmpty vC3 (by constructor <;> decide)⟩

/-- C8: when a value of no specialized kind reaches the structural branch
and its reconstruction routine raises NotImplementedError, the dispatcher
fails with the distinguishable Unsupported error naming the value, the
state being the one the routine left behind: the duplicate-and-store
caching step is never performed. -/
theorem reconstruct_unsupported_error (env : Env) (st st1 : CgState) (v : VT)
    (hkind : v.kind = VKind.other)
    (hconst : v.isPythonConstant = false)
    (hsrc : v.source = none)
    (htos : st.top_of_stack ≠ some v.vid)
    (htmp : tempvarGet st v = none)
    (hrec : env.reconstruct v (incUses st v.vid) = CgRes.err CgErr.notImplementedError st1) :
    pyCall env st (CgValue.vt v) true
      = CgRes.err (CgErr.unsupported ("reconstruct: " ++ vtStr v)) st1 := by
  simp [pyCall, pyCallVt, htos, pyCallVtRest, htmp, pyCallVtMain, hsrc, pyCallDispatch,
        hconst, hkind, structuralBranch, hrec]

theorem reconstruct_unsupported_error_witness :
    vC8.kind = VKind.other
    ∧ vC8.isPythonConstant = false
    ∧ vC8.source = none
    ∧ stEmpty.top_of_stack ≠ some vC8.vid
    ∧ tempvarGet stEmpty vC8 = none
    ∧ envW.reconstruct vC8 (incUses stEmpty vC8.vid)
        = CgRes.err CgErr.notImplementedError stC8r
    ∧ pyCall envW stEmpty (CgValue.vt vC8) true
        = CgRes.err (CgErr.unsupported ("reconstruct: " ++ vtStr vC8)) stC8r :=
  ⟨rfl, rfl, rfl, by decide, rfl, by decide,
   reconstruct_unsupported_error envW stEmpty stC8r vC8 rfl rfl rfl
     (by decide) rfl (by decide)⟩

/-- C10: on generations before 3.13, add_push_null clears the top-of-stack
descriptor before running its generator, so the result depends on the
generator only through its behavior on the cleared state; and from any
state whose descriptor is cleared, the dispatcher cannot take the
duplicate-top cache path, so the spliced null placeholder is never
separated from the callable by a duplication of an earlier value. -/
theorem add_push_null_precleared (ver : Nat) (g : CgState → CgRes) (cfe : Bool)
    (st : CgState) (env : Env) (stq : CgState) (v : VT) (ac : Bool)
    (h : ver < 313) :
    c10Concl ver g cfe st env stq v ac := by
  refine ⟨?_, rfl, ?_⟩
  · simp only [add_push_null, if_pos h, clear_tos]
  · intro hq
    simp [pyCallVt, hq]

theorem add_push_null_precleared_witness :
    312 < 313 ∧ c10Concl 312 gC5 false stEmpty envW stEmpty vC1 true :=
  ⟨by decide, add_push_null_precleared 312 gC5 false stEmpty envW stEmpty vC1 true (by decide)⟩

/-- C7: when the target generation has no native rotate instruction for
depth n, rot_n returns exactly the fallback sequence: BUILD_TUPLE of n,
a constant load of the rot_n helper, a rotation of the top two values to
swap the tuple below the helper, CALL_FUNCTION_EX invoking the helper
with the tuple as its unpacked argument list, and UNPACK_SEQUENCE of n. -/
theorem rot_n_fallback (ver n : Nat) (h : create_rot_n ver n = none) :
    rot_n ver n =
      [mkInstrArg "BUILD_TUPLE" n,
       mkInstrVal "LOAD_CONST" (ArgVal.const (PyConst.rotHelper n)),
       mkInstr "ROT_TWO",
       mkInstrArg "CALL_FUNCTION_EX" 0,
       mkInstrArg "UNPACK_SEQUENCE" n] := by
  have h1 : ¬ n ≤ 1 := fun hc => by simp [create_rot_n, hc] at h
  have h2 : ¬ 311 ≤ ver := fun hc => by simp [create_rot_n, h1, hc] at h
  have hrot2 : create_rot_n ver 2 = some [mkInstr "ROT_TWO"] := by
    simp [create_rot_n, h2]
  simp [rot_n, h, hrot2]

theorem rot_n_fallback_witness :
    create_rot_n 309 5 = none
    ∧ rot_n 309 5 =
        [mkInstrArg "BUILD_TUPLE" 5,
         mkInstrVal "LOAD_CONST" (ArgVal.const (PyConst.rotHelper 5)),
         mkInstr "ROT_TWO",
         mkInstrArg "CALL_FUNCTION_EX" 0,
         mkInstrArg "UNPACK_SEQUENCE" 5] :=
  ⟨by decide, rot_n_fallback 309 5 (by decide)⟩

/-- C5: add_push_null runs its generator, captures exactly the
instructions it appended, and splices the null placeholder before them on
3.11/3.12 and after them on 3.13+, preferring the embedded null-push bit
of the callable-loading instruction when it has one; on 3.13+ the
top-of-stack descriptor is cleared when the method returns. -/
theorem add_push_null_splices (ver : Nat) (g : CgState → CgRes) (st st2 : CgState)
    (insts : List Instruction)
    (h311 : 311 ≤ ver)
    (hg : g (if ver < 313 then clear_tos st else st) = CgRes.ok st2)
    (hout : st2._output = st._output ++ insts) :
    c5Concl ver g st st2 insts := by
  have hmain : add_push_null ver g false st =
      CgRes.ok (if 313 ≤ ver
        then clear_tos { st2 with _output := st._output ++ add_push_null_insts ver insts }
        else { st2 with _output := st._output ++ add_push_null_insts ver insts }) := by
    simp only [add_push_null, hg]
    simp only [hout, List.drop_left, List.take_left]
    by_cases h13 : 313 ≤ ver
    · simp [if_pos h13]
    · simp [if_neg h13]
  refine ⟨hmain, ?_, ?_, ?_⟩
  · intro hlo hhi
    unfold add_push_null_insts
    rw [if_neg (by omega)]
    by_cases hb : supportsNullBitL ver insts = true
    · rw [if_pos hb, if_pos hb]
    · rw [if_neg hb, if_neg hb, if_neg (by omega)]
  · intro h13
    unfold add_push_null_insts
    rw [if_neg (by omega)]
    by_cases hb : supportsNullBitL ver insts = true
    · rw [if_pos hb, if_pos hb]
    · rw [if_neg hb, if_neg hb, if_pos h13]
  · intro h13
    rw [hmain]
    simp [resState, if_pos h13, clear_tos]

theorem add_push_null_splices_witness :
    311 ≤ 313
    ∧ gC5 (if 313 < 313 then clear_tos stEmpty else stEmpty) = CgRes.ok stC5g
    ∧ stC5g._output = stEmpty._output ++ [mkInstrVal "LOAD_GLOBAL" (ArgVal.str "f")]
    ∧ c5Concl 313 gC5 stEmpty stC5g [mkInstrVal "LOAD_GLOBAL" (ArgVal.str "f")] :=
  ⟨by decide, by decide, by decide,
   add_push_null_splices 313 gC5 stEmpty stC5g [mkInstrVal "LOAD_GLOBAL" (ArgVal.str "f")]
     (by decide) (by decide) (by decide)⟩

/-- C4: a structural value registered in the temp-variable map (mapped to
no slot yet), reconstructed with caching enabled from a state where the
cache misses, emits the full reconstruction followed by duplicate-top and
a store into the freshly assigned temp slot on the first pass; after any
intervening instruction emission, a second request emits a single load of
that slot. -/
theorem structural_cache_roundtrip (env : Env) (st st1 : CgState) (v : VT)
    (insts : List Instruction) (j : Instruction)
    (hkind : v.kind = VKind.other)
    (hconst : v.isPythonConstant = false)
    (hsrc : v.source = none)
    (htos : st.top_of_stack ≠ some v.vid)
    (hreg : lookupD st.tempvars v.vid = some none)
    (hrec : env.reconstruct v (incUses st v.vid) = CgRes.ok st1)
    (hout : st1._output = st._output ++ insts)
    (hreg1 : lookupD st1.tempvars v.vid = some none) :
    pyCall env st (CgValue.vt v) true = CgRes.ok (c4CachedState env st1 v.vid)
    ∧ (c4CachedState env st1 v.vid)._output
        = st._output ++ insts
          ++ [createDupTop env.ver,
              mkInstrVal "STORE_FAST" (ArgVal.str (freshVarName st1.nextVar))]
    ∧ pyCall env (append_output (c4CachedState env st1 v.vid) j) (CgValue.vt v) true
        = CgRes.ok { append_output (c4CachedState env st1 v.vid) j with
            _output := (c4CachedState env st1 v.vid)._output
              ++ [j, mkInstrVal "LOAD_FAST" (ArgVal.str (freshVarName st1.nextVar))],
            top_of_stack := some v.vid } := by
  have htmp : tempvarGet st v = none := by simp [tempvarGet, hreg]
  refine ⟨?_, ?_, ?_⟩
  · simp [pyCall, pyCallVt, htos, pyCallVtRest, htmp, pyCallVtMain, hsrc, pyCallDispatch,
          hconst, hkind, structuralBranch, hrec, hreg1, add_cache, CgRes.andThen,
          c4CachedState, appendInstr, setTos, List.append_assoc]
  · simp [c4CachedState, hout, List.append_assoc]
  · have hlook : lookupD (setAssoc st1.tempvars v.vid (some (freshVarName st1.nextVar))) v.vid
        = some (some (freshVarName st1.nextVar)) := lookupD_setAssoc_self _ _ _
    simp [pyCall, pyCallVt, append_output, clear_tos, pyCallVtRest, tempvarGet,
          c4CachedState, hlook, appendCreateLoad, CgRes.andThen, setTos, appendInstr,
          List.append_assoc]

theorem structural_cache_roundtrip_witness :
    vC4.kind = VKind.other
    ∧ vC4.isPythonConstant = false
    ∧ vC4.source = none
    ∧ stC4.top_of_stack ≠ some vC4.vid
    ∧ lookupD stC4.tempvars vC4.vid = some none
    ∧ envC4.reconstruct vC4 (incUses stC4 vC4.vid) = CgRes.ok stC4r
    ∧ stC4r._output = stC4._output ++ [mkInstrArg "BUILD_LIST" 0]
    ∧ lookupD stC4r.tempvars vC4.vid = some none
    ∧ (pyCall envC4 stC4 (CgValue.vt vC4) true = CgRes.ok (c4CachedState envC4 stC4r vC4.vid)
       ∧ (c4CachedState envC4 stC4r vC4.vid)._output
           = stC4._output ++ [mkInstrArg "BUILD_LIST" 0]
             ++ [createDupTop envC4.ver,
                 mkInstrVal "STORE_FAST" (ArgVal.str (freshVarName stC4r.nextVar))]
       ∧ pyCall envC4 (append_output (c4CachedState envC4 stC4r vC4.vid) (mkInstr "POP_TOP"))
             (CgValue.vt vC4) true
           = CgRes.ok { append_output (c4CachedState envC4 stC4r vC4.vid) (mkInstr "POP_TOP") with
               _output := (c4CachedState envC4 stC4r vC4.vid)._output
                 ++ [mkInstr "POP_TOP",
                     mkInstrVal "LOAD_FAST" (ArgVal.str (freshVarName stC4r.nextVar))],
               top_of_stack := some vC4.vid }) :=
  ⟨rfl, rfl, rfl, by decide, by decide, by decide, by decide, by decide,
   structural_cache_roundtrip envC4 stC4 stC4r vC4 [mkInstrArg "BUILD_LIST" 0] (mkInstr "POP_TOP")
     rfl rfl rfl (by decide) (by decide) (by decide) (by decide) (by decide)⟩
